import Mathlib

/-!
Shallow embedding of the project2github pipeline (project2github.py,
project2github_mcp.py, server.py): a local directory is turned into a git
repository, a remote repository is created through the hosting API, and the
local history is pushed.  External effects (git subprocesses, GitHub API
calls) are modelled by an abstract world and an explicit effect trace; each
Python function becomes a Lean function returning its result, the git state
after the call, and the list of external effects it performed, in order.
-/

namespace P2G

/-- Outcome of one subprocess invocation, as `subprocess.run` reports it:
return code plus captured standard output and error. -/
structure ProcResult where
  returncode : Int
  stdout : String
  stderr : String
deriving Repr, DecidableEq

/-- The git subcommands the pipeline invokes. -/
inductive GitCmd
  | version
  | revParse
  | init
  | status
  | add
  | commit
  | remoteAdd (url : String)
  | push
deriving Repr, DecidableEq

/-- Abstract state of the target directory's working tree: whether it is a
git repository, whether `git status --porcelain` reports pending changes,
how many commits exist, and whether a remote named "origin" is registered. -/
structure GitState where
  isRepo : Bool
  dirty : Bool
  commits : Nat
  hasOrigin : Bool
deriving Repr, DecidableEq

/-- Reference semantics of a healthy git installation acting on the abstract
working-tree state: `rev-parse --is-inside-work-tree` succeeds exactly inside
a repository, `init` creates one, `status --porcelain` prints output exactly
when changes are pending, `commit` records them, `remote add origin` fails
when an origin already exists, and `push` succeeds. -/
def gitSpec : GitCmd → GitState → ProcResult × GitState
  | .version, s => (⟨0, "git version 2.39.5", ""⟩, s)
  | .revParse, s =>
      if s.isRepo then (⟨0, "true", ""⟩, s)
      else (⟨128, "", "fatal: not a git repository"⟩, s)
  | .init, s => (⟨0, "Initialized empty Git repository", ""⟩, { s with isRepo := true })
  | .status, s => (⟨0, if s.dirty then "?? file" else "", ""⟩, s)
  | .add, s => (⟨0, "", ""⟩, s)
  | .commit, s =>
      (⟨0, "Initial commit", ""⟩, { s with dirty := false, commits := s.commits + 1 })
  | .remoteAdd _, s =>
      if s.hasOrigin then (⟨3, "", "error: remote origin already exists."⟩, s)
      else (⟨0, "", ""⟩, { s with hasOrigin := true })
  | .push, s => (⟨0, "", "branch master set up to track origin/master"⟩, s)

/-- A JSON value, as handled by the line-protocol dispatcher (numbers are
modelled as integers, which covers every value the protocol inspects). -/
inductive JValue
  | null
  | bool (b : Bool)
  | num (n : Int)
  | str (s : String)
  | arr (items : List JValue)
  | obj (fields : List (String × JValue))

/-- External effect performed by the pipeline: a git subprocess, a GitHub API
authentication (`Github(token).get_user()`), or a repository-creation API
call (`user.create_repo(name, private=...)`). -/
inductive Effect
  | gitCall (c : GitCmd)
  | apiAuth
  | apiCreate (name : JValue) (priv : JValue)

/-- Whether an effect reaches the network: the GitHub API calls and `git
push` do; the purely local git subprocesses do not. -/
def Effect.isNetwork : Effect → Bool
  | .gitCall .push => true
  | .apiAuth => true
  | .apiCreate _ _ => true
  | .gitCall _ => false

/-- The git subcommands occurring in an effect trace, in order. -/
def gitTrace (tr : List Effect) : List GitCmd :=
  tr.filterMap (fun e => match e with | .gitCall c => some c | _ => none)

/-- The whole external environment of one pipeline invocation: the
`GITHUB_TOKEN` and `GITHUB_USERNAME` environment variables, the filesystem's
existence test, path resolution (`Path(...).resolve()`), whether
`git --version` exits cleanly, the behaviour of git subprocesses on the
target directory, and the outcomes of the two GitHub API steps together with
the created repository's reported URLs. -/
structure World where
  token : Option String
  username : Option String
  fs : String → Bool
  resolve : String → String
  gitVersionOk : Bool
  git : GitCmd → GitState → ProcResult × GitState
  authOk : Bool
  createOk : Bool
  apiHtmlUrl : String
  apiCloneUrl : String

/-- Python truthiness test for an optional environment-variable value
(`if not token`): unset or the empty string. -/
def envFalsy : Option String → Bool
  | none => true
  | some s => decide (s = "")

/-- Python `os.getenv` value rendered into an f-string: an unset variable
prints as the literal text "None". -/
def pyStrOpt : Option String → String
  | none => "None"
  | some s => s

/-- Final path segment, as `Path(p).name` computes it (trailing separators
ignored, empty for the root). -/
def pathName (p : String) : String :=
  ((((p.splitOn "/").filter (fun seg => seg ≠ "")).getLast?).getD "")

/-- Python `name if name else fallback` / `name or fallback` on the optional
repository-name argument: `None` and the empty string select the fallback. -/
def pyOrName (name : Option String) (fallback : String) : String :=
  match name with
  | some n => if n = "" then fallback else n
  | none => fallback

/-- Python `str.strip()`: the string with leading and trailing whitespace
removed (implemented by structural recursion over the character list so that
it evaluates inside the kernel). -/
def pyStrip (s : String) : String :=
  String.mk (((s.data.dropWhile (fun c => c.isWhitespace)).reverse.dropWhile
    (fun c => c.isWhitespace)).reverse)

/-! ## project2github.py -/

/-- Embeds `check_git_installed` of project2github.py: run `git --version`
with `check=True`; `True` exactly when the subprocess exits cleanly (a
non-zero exit or a missing executable is caught and yields `False`). -/
def check_git_installed (w : World) : Bool × List Effect :=
  (w.gitVersionOk, [Effect.gitCall .version])

/-- Straight-line remainder of `init_git_repo` in project2github.py after the
repository-existence branch: query `git status --porcelain`; when its stripped
output is non-empty, run `git add .` and `git commit -m "Initial commit"`.
Neither `add` nor `commit` is run with `check=True`, so their exit codes are
ignored and this part always reports success. -/
def initCommitTail (exec : GitCmd → GitState → ProcResult × GitState)
    (s : GitState) (pre : List Effect) : Bool × GitState × List Effect :=
  let st := exec .status s
  if pyStrip st.1.stdout = "" then
    (true, st.2, pre ++ [Effect.gitCall .status])
  else
    let a := exec .add st.2
    let c := exec .commit a.2
    (true, c.2, pre ++ [Effect.gitCall .status, Effect.gitCall .add, Effect.gitCall .commit])

/-- Embeds `init_git_repo` of project2github.py: `git rev-parse
--is-inside-work-tree` decides whether the directory is already a repository;
if not, `git init` runs with `check=True` (its failure is the only one caught
as `CalledProcessError`, yielding `False`); then the status/add/commit
straight line runs. -/
def init_git_repo (exec : GitCmd → GitState → ProcResult × GitState)
    (s0 : GitState) : Bool × GitState × List Effect :=
  let r1 := exec .revParse s0
  if r1.1.returncode = 0 then
    initCommitTail exec r1.2 [Effect.gitCall .revParse]
  else
    let r2 := exec .init r1.2
    if r2.1.returncode = 0 then
      initCommitTail exec r2.2 [Effect.gitCall .revParse, Effect.gitCall .init]
    else
      (false, r2.2, [Effect.gitCall .revParse, Effect.gitCall .init])

/-- Embeds `create_github_repo` of project2github.py: authenticate
(`Github(token).get_user()`), create the remote repository, then run
`git remote add origin` and `git push -u origin master` — both without
`check=True`, so their exit codes are ignored and the function returns `True`
whenever the two API steps succeed.  API exceptions are caught and yield
`False`. -/
def create_github_repo (w : World) (repoName : String) (priv : Bool)
    (s0 : GitState) : Bool × GitState × List Effect :=
  if !w.authOk then
    (false, s0, [Effect.apiAuth])
  else if !w.createOk then
    (false, s0, [Effect.apiAuth, Effect.apiCreate (.str repoName) (.bool priv)])
  else
    let r := w.git (.remoteAdd w.apiCloneUrl) s0
    let p := w.git .push r.2
    (true, p.2,
      [Effect.apiAuth, Effect.apiCreate (.str repoName) (.bool priv),
        Effect.gitCall (.remoteAdd w.apiCloneUrl), Effect.gitCall .push])

/-- Result record of the `upload_to_github` tool (the returned dict's
`success`, `message`, `error` and `repo_name` entries; the log buffer is not
modelled). -/
structure UploadResult where
  success : Bool
  message : Option String
  error : Option String
  repo_name : Option String
deriving Repr, DecidableEq

/-- Embeds the `upload_to_github` tool of project2github.py: check
`GITHUB_TOKEN` first, then resolve the directory and check its existence,
derive the repository name, check git, initialize the local repository, and
finally create the remote repository and push. -/
def upload_to_github (w : World) (s0 : GitState) (directory : String)
    (name : Option String) (priv : Bool) : UploadResult × GitState × List Effect :=
  if envFalsy w.token then
    (⟨false, none,
      some "GITHUB_TOKEN environment variable not set, please set GITHUB_TOKEN=your_token in .env file",
      none⟩, s0, [])
  else
    let dirR := w.resolve directory
    if !(w.fs dirR) then
      (⟨false, none, some ("Directory " ++ dirR ++ " does not exist"), none⟩, s0, [])
    else
      let repoName := pyOrName name (pathName dirR)
      if !w.gitVersionOk then
        (⟨false, none, some "Please install Git first", none⟩, s0, [Effect.gitCall .version])
      else
        let ir := init_git_repo w.git s0
        if ir.1 = false then
          (⟨false, none, some "Failed to initialize Git repository", none⟩,
            ir.2.1, Effect.gitCall .version :: ir.2.2)
        else
          let cr := create_github_repo w repoName priv ir.2.1
          if cr.1 then
            (⟨true, some ("Code successfully pushed to GitHub! Repository name: " ++ repoName),
              none, some repoName⟩,
              cr.2.1, Effect.gitCall .version :: (ir.2.2 ++ cr.2.2))
          else
            (⟨false, none, some "Failed to create or push to GitHub repository", none⟩,
              cr.2.1, Effect.gitCall .version :: (ir.2.2 ++ cr.2.2))

/-- Default of the tool signature's `private` parameter in project2github.py
(`private: bool = True`). -/
def uploadPrivateDefault : Bool := true

/-- An invocation of the `upload_to_github` tool that omits the `private`
argument: the signature default applies. -/
def upload_to_github_defaultCall (w : World) (s0 : GitState) (directory : String)
    (name : Option String) : UploadResult × GitState × List Effect :=
  upload_to_github w s0 directory name uploadPrivateDefault

/-- Command-line arguments accepted by the basic CLI (`main` of
project2github.py): a positional directory, `--name`, and the `--private`
flag. -/
structure CliArgs where
  directory : String
  name : Option String
  priv : Bool
deriving Repr, DecidableEq

/-- Embeds the argparse configuration of `main`: `--private` is a
`store_true` flag defaulting to `False`, `--name` takes a value, and exactly
one positional directory argument is expected. -/
def parseCliArgs (argv : List String) : Option CliArgs :=
  go argv none none false
where
  go : List String → Option String → Option String → Bool → Option CliArgs
    | [], dir, nm, pv => dir.map (fun d => ⟨d, nm, pv⟩)
    | "--private" :: rest, dir, nm, _ => go rest dir nm true
    | "--name" :: v :: rest, dir, _, pv => go rest dir (some v) pv
    | a :: rest, dir, nm, pv =>
        match dir with
        | none => go rest (some a) nm pv
        | some _ => none

/-- Embeds the CLI mode of `main` in project2github.py: parse the arguments
and call `upload_to_github` with them (`args.private` is passed explicitly,
so the CLI's `False` default governs). -/
def cli_run (w : World) (s0 : GitState) (argv : List String) :
    Option (UploadResult × GitState × List Effect) :=
  (parseCliArgs argv).map (fun a => upload_to_github w s0 a.directory a.name a.priv)

/-! ## server.py -/

/-- Result record of `Project2GitHubMCP.create_repo` in server.py
(`success`, optional `repo_url`, optional `error`). -/
structure ServerResult where
  success : Bool
  repo_url : Option String
  error : Option String
deriving Repr, DecidableEq

/-- Embeds `Project2GitHubMCP.create_repo` of server.py: check that the
directory exists (`os.path.exists`, on the path as given), check git,
initialize the local repository, check `GITHUB_TOKEN`, then call
`create_github_repo`; on success the returned `repo_url` is formatted from
the `GITHUB_USERNAME` environment variable and the chosen repository name,
not from the URL the API reported. -/
def server_create_repo (w : World) (s0 : GitState) (directory : String)
    (name : Option String) (priv : Bool) : ServerResult × GitState × List Effect :=
  if !(w.fs directory) then
    (⟨false, none, some ("Directory " ++ directory ++ " does not exist")⟩, s0, [])
  else if !w.gitVersionOk then
    (⟨false, none, some "Git is not installed"⟩, s0, [Effect.gitCall .version])
  else
    let ir := init_git_repo w.git s0
    if ir.1 = false then
      (⟨false, none, some "Failed to initialize Git repository"⟩,
        ir.2.1, Effect.gitCall .version :: ir.2.2)
    else if envFalsy w.token then
      (⟨false, none, some "GITHUB_TOKEN environment variable is not set"⟩,
        ir.2.1, Effect.gitCall .version :: ir.2.2)
    else
      let repoName := pyOrName name (pathName directory)
      let cr := create_github_repo w repoName priv ir.2.1
      if cr.1 then
        (⟨true, some ("https://github.com/" ++ pyStrOpt w.username ++ "/" ++ repoName), none⟩,
          cr.2.1, Effect.gitCall .version :: (ir.2.2 ++ cr.2.2))
      else
        (⟨false, none, some "Failed to create GitHub repository"⟩,
          cr.2.1, Effect.gitCall .version :: (ir.2.2 ++ cr.2.2))

/-! ## project2github_mcp.py -/

/-- Associative lookup in a JSON object's field list (Python `dict` access;
keys produced by `json.loads` are unique). -/
def lookupList : List (String × JValue) → String → Option JValue
  | [], _ => none
  | (k, v) :: rest, key => if k = key then some v else lookupList rest key

/-- Field access on a JSON value: defined only on objects. -/
def JValue.getField : JValue → String → Option JValue
  | .obj fields, key => lookupList fields key
  | _, _ => none

/-- Python `dict.get` rendered back into JSON: an absent key is `None`,
which serializes as `null`. -/
def orNull : Option JValue → JValue
  | none => .null
  | some v => v

/-- Python truthiness of a possibly-absent JSON value (`if not x`): absent,
`null`, `false`, `0`, the empty string, the empty array and the empty object
are falsy. -/
def isFalsy : Option JValue → Bool
  | none => true
  | some .null => true
  | some (.bool b) => !b
  | some (.num n) => decide (n = 0)
  | some (.str s) => decide (s = "")
  | some (.arr items) => items.isEmpty
  | some (.obj fields) => fields.isEmpty

/-- A JSON-RPC error object `{"code": ..., "message": ...}`. -/
def mkErr (code : Int) (msg : String) : JValue :=
  .obj [("code", .num code), ("message", .str msg)]

/-- A response envelope as every branch of `handle_command` builds it: the
fields `jsonrpc: "2.0"` and `id` followed by the branch's `result` or
`error` entry. -/
def mkResponse (i : JValue) (rest : List (String × JValue)) : JValue :=
  .obj (("jsonrpc", .str "2.0") :: ("id", i) :: rest)

/-- Payload a project2github_mcp.py operation hands back to the dispatcher:
either a `{"result": {...}}` entry or an `{"error": {code, message}}`
entry, merged into the response envelope by `response.update(result)`. -/
inductive RpcOut
  | ok (payload : List (String × JValue))
  | err (code : Int) (message : String)

/-- Whether an operation payload is a success result. -/
def RpcOut.isOk : RpcOut → Bool
  | .ok _ => true
  | .err _ _ => false

/-- Error code of an operation payload, when it is an error. -/
def RpcOut.errCode : RpcOut → Option Int
  | .ok _ => none
  | .err c _ => some c

/-- The response-envelope entry an operation payload merges in. -/
def RpcOut.fields : RpcOut → List (String × JValue)
  | .ok payload => [("result", JValue.obj payload)]
  | .err c m => [("error", mkErr c m)]

/-- Python `str` of a `subprocess.CalledProcessError` (the message the mcp
variant embeds in its error payloads; it reports the command and exit
status, not the captured output). -/
def calledProcessErrorStr (cmd : String) (rc : Int) : String :=
  "Command 'git " ++ cmd ++ "' returned non-zero exit status " ++ toString rc ++ "."

/-- Embeds `check_git_installed` of project2github_mcp.py: a clean
`git --version` yields a success result, a failing or missing git yields
error code -32000. -/
def mcpCheckGitInstalled (gitVersionOk : Bool) : RpcOut :=
  if gitVersionOk then .ok [("success", .bool true), ("message", .str "Git已安装")]
  else .err (-32000) "错误: 请先安装Git"

/-- Straight-line remainder of `init_git_repo` in project2github_mcp.py:
query `git status --porcelain`; on non-empty stripped output run `git add .`
and `git commit` — both with `check=True` here, so a non-zero exit of either
aborts with error code -32001. -/
def mcpInitCommitTail (exec : GitCmd → GitState → ProcResult × GitState)
    (s : GitState) (pre : List Effect) : RpcOut × GitState × List Effect :=
  let st := exec .status s
  if pyStrip st.1.stdout = "" then
    (.ok [("success", .bool true), ("message", .str "Git仓库初始化成功")],
      st.2, pre ++ [Effect.gitCall .status])
  else
    let a := exec .add st.2
    if a.1.returncode ≠ 0 then
      (.err (-32001) ("Git操作失败: " ++ calledProcessErrorStr "add ." a.1.returncode),
        a.2, pre ++ [Effect.gitCall .status, Effect.gitCall .add])
    else
      let c := exec .commit a.2
      if c.1.returncode ≠ 0 then
        (.err (-32001) ("Git操作失败: " ++ calledProcessErrorStr "commit" c.1.returncode),
          c.2, pre ++ [Effect.gitCall .status, Effect.gitCall .add, Effect.gitCall .commit])
      else
        (.ok [("success", .bool true), ("message", .str "Git仓库初始化成功")],
          c.2, pre ++ [Effect.gitCall .status, Effect.gitCall .add, Effect.gitCall .commit])

/-- Embeds `init_git_repo` of project2github_mcp.py: like the basic variant,
but `git init`, `git add` and `git commit` all run with `check=True`, so any
of them exiting non-zero aborts with error code -32001. -/
def mcp_init_git_repo (exec : GitCmd → GitState → ProcResult × GitState)
    (s0 : GitState) : RpcOut × GitState × List Effect :=
  let r1 := exec .revParse s0
  if r1.1.returncode = 0 then
    mcpInitCommitTail exec r1.2 [Effect.gitCall .revParse]
  else
    let r2 := exec .init r1.2
    if r2.1.returncode = 0 then
      mcpInitCommitTail exec r2.2 [Effect.gitCall .revParse, Effect.gitCall .init]
    else
      (.err (-32001) ("Git操作失败: " ++ calledProcessErrorStr "init" r2.1.returncode),
        r2.2, [Effect.gitCall .revParse, Effect.gitCall .init])

/-- Embeds `create_github_repo` of project2github_mcp.py: authenticate,
create the remote repository, then `git remote add origin` and `git push` —
both with `check=True` here, so a non-zero exit of either aborts with error
code -32002 (the same code every caught exception yields). -/
def mcp_create_github_repo (w : World) (repoName priv : JValue)
    (s0 : GitState) : RpcOut × GitState × List Effect :=
  if !w.authOk then
    (.err (-32002) "创建GitHub仓库失败: authentication failed", s0, [Effect.apiAuth])
  else if !w.createOk then
    (.err (-32002) "创建GitHub仓库失败: repository creation failed", s0,
      [Effect.apiAuth, Effect.apiCreate repoName priv])
  else
    let r := w.git (.remoteAdd w.apiCloneUrl) s0
    if r.1.returncode ≠ 0 then
      (.err (-32002) ("创建GitHub仓库失败: " ++ calledProcessErrorStr "remote add origin" r.1.returncode),
        r.2, [Effect.apiAuth, Effect.apiCreate repoName priv,
          Effect.gitCall (.remoteAdd w.apiCloneUrl)])
    else
      let p := w.git .push r.2
      if p.1.returncode ≠ 0 then
        (.err (-32002) ("创建GitHub仓库失败: " ++ calledProcessErrorStr "push -u origin master" p.1.returncode),
          p.2, [Effect.apiAuth, Effect.apiCreate repoName priv,
            Effect.gitCall (.remoteAdd w.apiCloneUrl), Effect.gitCall .push])
      else
        (.ok [("success", .bool true), ("message", .str "仓库创建成功"),
            ("url", .str w.apiHtmlUrl), ("clone_url", .str w.apiCloneUrl)],
          p.2, [Effect.apiAuth, Effect.apiCreate repoName priv,
            Effect.gitCall (.remoteAdd w.apiCloneUrl), Effect.gitCall .push])

/-- The `params` value of a request: `data.get("params", {})`. -/
def paramsOf (fields : List (String × JValue)) : JValue :=
  match lookupList fields "params" with
  | none => .obj []
  | some v => v

/-- Python `dict.get(key, default)`: the stored value when the key is
present (even when it is `null`), the default otherwise. -/
def orDefault (o : Option JValue) (d : JValue) : JValue :=
  match o with
  | none => d
  | some v => v

/-- Response of the generic exception handler of `handle_command`
(`except Exception`): error code -32603 with a null id. -/
def internalErrorResp : JValue :=
  mkResponse .null [("error", mkErr (-32603) "Internal error")]

/-- Embeds `handle_command` of project2github_mcp.py.  The input is the
result of `json.loads` on the line: a parse failure yields -32700 with null
id; a parsed value that is not an object makes the field accesses raise,
which the generic handler turns into -32603.  For objects: a missing or
wrong `jsonrpc` field yields -32600, a falsy `method` yields -32600,
`check_git`, `init_repo` and `create_repo` dispatch to the operations above
(with -32602 for missing parameters or a nonexistent directory, and -32603
when `Path(...)` is applied to a truthy non-string), and any other method
yields -32601. -/
def handle_command (w : World) (s0 : GitState) (input : Except Unit JValue) :
    JValue × GitState × List Effect :=
  match input with
  | .error _ =>
      (mkResponse .null [("error", mkErr (-32700) "Parse error: Invalid JSON")], s0, [])
  | .ok data =>
    match data with
    | .obj fields =>
      let cmdId := orNull (lookupList fields "id")
      match lookupList fields "jsonrpc" with
      | some (.str ver) =>
        if ver = "2.0" then
          let mval := lookupList fields "method"
          if isFalsy mval then
            (mkResponse cmdId [("error", mkErr (-32600) "Invalid Request: Method not specified")],
              s0, [])
          else
            match mval with
            | some (.str m) =>
              if m = "check_git" then
                (mkResponse cmdId (mcpCheckGitInstalled w.gitVersionOk).fields,
                  s0, [Effect.gitCall .version])
              else if m = "init_repo" then
                match paramsOf fields with
                | .obj ps =>
                  let dval := lookupList ps "directory"
                  if isFalsy dval then
                    (mkResponse cmdId [("error", mkErr (-32602) "缺少directory参数")], s0, [])
                  else
                    match dval with
                    | some (.str d) =>
                      let rd := w.resolve d
                      if !(w.fs rd) then
                        (mkResponse cmdId
                          [("error", mkErr (-32602) ("目录 " ++ rd ++ " 不存在"))], s0, [])
                      else
                        let ir := mcp_init_git_repo w.git s0
                        (mkResponse cmdId ir.1.fields, ir.2.1, ir.2.2)
                    | _ => (internalErrorResp, s0, [])
                | _ => (internalErrorResp, s0, [])
              else if m = "create_repo" then
                match paramsOf fields with
                | .obj ps =>
                  let missing := (["token", "directory", "repo_name"]).filter
                    (fun p => (lookupList ps p).isNone)
                  if missing.isEmpty then
                    match lookupList ps "directory" with
                    | some (.str d) =>
                      let rd := w.resolve d
                      if !(w.fs rd) then
                        (mkResponse cmdId
                          [("error", mkErr (-32602) ("目录 " ++ rd ++ " 不存在"))], s0, [])
                      else
                        let cr := mcp_create_github_repo w
                          (orNull (lookupList ps "repo_name"))
                          (orDefault (lookupList ps "private") (.bool false)) s0
                        (mkResponse cmdId cr.1.fields, cr.2.1, cr.2.2)
                    | _ => (internalErrorResp, s0, [])
                  else
                    (mkResponse cmdId
                      [("error", mkErr (-32602)
                        ("缺少参数: " ++ String.intercalate ", " missing))], s0, [])
                | _ => (internalErrorResp, s0, [])
              else
                (mkResponse cmdId [("error", mkErr (-32601) ("Method not found: " ++ m))],
                  s0, [])
            | _ =>
              (mkResponse cmdId [("error", mkErr (-32601) "Method not found")], s0, [])
        else
          (mkResponse cmdId [("error", mkErr (-32600) "Invalid Request: Not JSON-RPC 2.0")],
            s0, [])
      | _ =>
        (mkResponse cmdId [("error", mkErr (-32600) "Invalid Request: Not JSON-RPC 2.0")],
          s0, [])
    | _ => (internalErrorResp, s0, [])

/-- Error code carried by a response envelope, when it has an error entry. -/
def respErrCode (resp : JValue) : Option JValue :=
  (resp.getField "error").bind (fun e => e.getField "code")

/-! ## Concrete environments and states used as test fixtures -/

/-- A healthy environment: token set, username unset, every path exists,
git works, both API steps succeed. -/
def sampleWorld : World :=
  ⟨some "tok", none, fun _ => true, fun pth => pth, true, gitSpec, true, true,
    "https://github.com/user/proj", "https://github.com/user/proj.git"⟩

/-- The healthy environment with `GITHUB_TOKEN` unset. -/
def noTokenWorld : World :=
  ⟨none, none, fun _ => true, fun pth => pth, true, gitSpec, true, true,
    "https://github.com/user/proj", "https://github.com/user/proj.git"⟩

/-- The healthy environment on a filesystem where no path exists. -/
def noDirWorld : World :=
  ⟨some "tok", none, fun _ => false, fun pth => pth, true, gitSpec, true, true,
    "https://github.com/user/proj", "https://github.com/user/proj.git"⟩

/-- A directory that is not yet a working tree and has uncommitted files. -/
def freshDir : GitState := ⟨false, true, 0, false⟩

/-- A working tree with one commit and a clean status. -/
def cleanRepo : GitState := ⟨true, false, 1, false⟩

/-- A working tree with uncommitted changes. -/
def dirtyRepo : GitState := ⟨true, true, 0, false⟩

/-- A clean working tree that already has an "origin" remote. -/
def originRepo : GitState := ⟨true, false, 1, true⟩

/-- A line-protocol `init_repo` request for directory `d` with id `i`. -/
def initRepoReq (d : String) (i : JValue) : JValue :=
  .obj [("jsonrpc", .str "2.0"), ("id", i), ("method", .str "init_repo"),
    ("params", .obj [("directory", .str d)])]

/-- A line-protocol `create_repo` request for directory `d` with id `i`,
token value `tokv` and repository name `rnv`. -/
def createRepoReq (d : String) (i tokv rnv : JValue) : JValue :=
  .obj [("jsonrpc", .str "2.0"), ("id", i), ("method", .str "create_repo"),
    ("params", .obj [("token", tokv), ("directory", .str d), ("repo_name", rnv)])]

/-- The fixed `check_git` request of the spec's example. -/
def checkGitReq : JValue :=
  .obj [("jsonrpc", .str "2.0"), ("id", .num 1), ("method", .str "check_git"),
    ("params", .obj [])]

/-! ## Helper lemmas -/

/-- The status/add/commit straight line of the basic variant always reports
success (neither subprocess runs with `check=True`). -/
theorem initCommitTail_fst (exec : GitCmd → GitState → ProcResult × GitState)
    (s : GitState) (pre : List Effect) : (initCommitTail exec s pre).1 = true := by
  unfold initCommitTail
  dsimp only
  split <;> rfl

/-- The local repository preparer performs no network effect: its trace
consists of rev-parse/init/status/add/commit subprocesses only. -/
theorem init_git_repo_all_local (exec : GitCmd → GitState → ProcResult × GitState)
    (s0 : GitState) :
    ((init_git_repo exec s0).2.2).all (fun e => !e.isNetwork) = true := by
  unfold init_git_repo initCommitTail
  dsimp only
  split
  · split <;> rfl
  · split
    · split <;> rfl
    · rfl

/-- Pointwise form of a `List.all` no-network statement. -/
theorem no_network_of_all {tr : List Effect}
    (h : tr.all (fun e => !e.isNetwork) = true) :
    ∀ e ∈ tr, e.isNetwork = false := by
  intro e he
  simpa using List.all_eq_true.mp h e he

/-! ## Claim theorems -/

/-- C1: whenever `GITHUB_TOKEN` is unset or empty, `upload_to_github`
(project2github.py) returns `success = false` having performed no external
effect at all, and `create_repo` (server.py) returns `success = false`
having performed no network effect (no API authentication, no repository
creation, no push). -/
theorem missing_token_fails_without_network (w : World) (s0 : GitState)
    (d : String) (n : Option String) (p : Bool)
    (htok : envFalsy w.token = true) :
    ((upload_to_github w s0 d n p).1.success = false ∧
      (upload_to_github w s0 d n p).2.2 = []) ∧
    ((server_create_repo w s0 d n p).1.success = false ∧
      ∀ e ∈ (server_create_repo w s0 d n p).2.2, e.isNetwork = false) := by
  refine ⟨⟨?_, ?_⟩, ?_, ?_⟩
  · simp [upload_to_github, htok]
  · simp [upload_to_github, htok]
  · unfold server_create_repo
    dsimp only
    cases h1 : w.fs d
    · rfl
    · cases h2 : w.gitVersionOk
      · rfl
      · cases h3 : (init_git_repo w.git s0).1
        · rfl
        · rw [htok]
          rfl
  · apply no_network_of_all
    unfold server_create_repo
    dsimp only
    have hcons : ((Effect.gitCall GitCmd.version :: (init_git_repo w.git s0).2.2).all
        (fun e => !e.isNetwork)) = true := by
      simp only [List.all_cons, Bool.and_eq_true]
      exact ⟨rfl, init_git_repo_all_local w.git s0⟩
    cases h1 : w.fs d
    · rfl
    · cases h2 : w.gitVersionOk
      · rfl
      · cases h3 : (init_git_repo w.git s0).1
        · simpa using hcons
        · rw [htok]
          simpa using hcons

/-- Witness for C1: the concrete environment with the token unset. -/
theorem missing_token_fails_without_network_witness :
    ((upload_to_github noTokenWorld freshDir "/proj" none true).1.success = false ∧
      (upload_to_github noTokenWorld freshDir "/proj" none true).2.2 = []) ∧
    ((server_create_repo noTokenWorld freshDir "/proj" none true).1.success = false ∧
      ∀ e ∈ (server_create_repo noTokenWorld freshDir "/proj" none true).2.2,
        e.isNetwork = false) :=
  missing_token_fails_without_network noTokenWorld freshDir "/proj" none true rfl

/-- C2: when the target directory does not exist (neither as given, checked
by server.py's `os.path.exists`, nor after resolution, checked by the other
two variants), every variant fails before any subprocess or network effect:
`upload_to_github` and server.py's `create_repo` return `success = false`
with an empty trace, and the line-protocol `init_repo` and `create_repo`
requests answer with error code -32602 and an empty trace. -/
theorem nonexistent_directory_fails_early (w : World) (s0 : GitState) (d : String)
    (n : Option String) (p : Bool) (i tokv rnv : JValue)
    (hres : w.fs (w.resolve d) = false) (hd : w.fs d = false) :
    ((upload_to_github w s0 d n p).1.success = false ∧
      (upload_to_github w s0 d n p).2.2 = []) ∧
    ((server_create_repo w s0 d n p).1.success = false ∧
      (server_create_repo w s0 d n p).2.2 = []) ∧
    (respErrCode (handle_command w s0 (.ok (initRepoReq d i))).1 = some (.num (-32602)) ∧
      (handle_command w s0 (.ok (initRepoReq d i))).2.2 = []) ∧
    (respErrCode (handle_command w s0 (.ok (createRepoReq d i tokv rnv))).1 =
        some (.num (-32602)) ∧
      (handle_command w s0 (.ok (createRepoReq d i tokv rnv))).2.2 = []) := by
  refine ⟨⟨?_, ?_⟩, ⟨?_, ?_⟩, ?_, ?_⟩
  · by_cases ht : envFalsy w.token <;> simp [upload_to_github, ht, hres]
  · by_cases ht : envFalsy w.token <;> simp [upload_to_github, ht, hres]
  · simp [server_create_repo, hd]
  · simp [server_create_repo, hd]
  · by_cases h0 : d = ""
    · subst h0
      exact ⟨rfl, rfl⟩
    · constructor <;>
        simp [handle_command, initRepoReq, paramsOf, lookupList, isFalsy, h0, hres,
          respErrCode, JValue.getField, mkResponse, mkErr]
  · constructor <;>
      simp [handle_command, createRepoReq, paramsOf, lookupList, isFalsy, hres,
        respErrCode, JValue.getField, mkResponse, mkErr]

/-- Witness for C2: the concrete environment where no path exists. -/
theorem nonexistent_directory_fails_early_witness :
    ((upload_to_github noDirWorld freshDir "/missing" none true).1.success = false ∧
      (upload_to_github noDirWorld freshDir "/missing" none true).2.2 = []) ∧
    ((server_create_repo noDirWorld freshDir "/missing" none true).1.success = false ∧
      (server_create_repo noDirWorld freshDir "/missing" none true).2.2 = []) ∧
    (respErrCode (handle_command noDirWorld freshDir
        (.ok (initRepoReq "/missing" (.num 2)))).1 = some (.num (-32602)) ∧
      (handle_command noDirWorld freshDir (.ok (initRepoReq "/missing" (.num 2)))).2.2 = []) ∧
    (respErrCode (handle_command noDirWorld freshDir
        (.ok (createRepoReq "/missing" (.num 2) (.str "t") (.str "r")))).1 =
        some (.num (-32602)) ∧
      (handle_command noDirWorld freshDir
        (.ok (createRepoReq "/missing" (.num 2) (.str "t") (.str "r")))).2.2 = []) :=
  nonexistent_directory_fails_early noDirWorld freshDir "/missing" none true
    (.num 2) (.str "t") (.str "r") rfl rfl

/-- A git oracle identical to the reference semantics except that `git add`
exits with status 1. -/
def addFailExec : GitCmd → GitState → ProcResult × GitState
  | .add, s => (⟨1, "", "fatal: unable to index file"⟩, s)
  | c, s => gitSpec c s

/-- Counterexample to C3: on a dirty working tree where `git add` exits
non-zero, the basic preparer still returns success — the `add` subprocess is
invoked, its non-zero exit is ignored, and no failure result is produced. -/
theorem add_failure_not_surfaced :
    (addFailExec .add dirtyRepo).1.returncode ≠ 0 ∧
    GitCmd.add ∈ gitTrace (init_git_repo addFailExec dirtyRepo).2.2 ∧
    (init_git_repo addFailExec dirtyRepo).1 = true := by
  decide

/-- The working-tree state in which the preparers run `git status` (directly
after rev-parse when the directory already is a repository, after `git init`
otherwise). -/
def statusEntryState (exec : GitCmd → GitState → ProcResult × GitState)
    (s0 : GitState) : GitState :=
  let r1 := exec .revParse s0
  if r1.1.returncode = 0 then r1.2 else (exec .init r1.2).2

/-- The basic preparer fails exactly when the directory is not a working
tree and `git init` then exits non-zero; the exit codes of rev-parse,
status, add and commit never produce a failure. -/
theorem init_git_repo_false_iff (exec : GitCmd → GitState → ProcResult × GitState)
    (s0 : GitState) :
    (init_git_repo exec s0).1 = false ↔
      ((exec .revParse s0).1.returncode ≠ 0 ∧
        (exec .init (exec .revParse s0).2).1.returncode ≠ 0) := by
  unfold init_git_repo
  dsimp only
  by_cases h1 : (exec .revParse s0).1.returncode = 0
  · rw [if_pos h1]
    simp [initCommitTail_fst, h1]
  · rw [if_neg h1]
    by_cases h2 : (exec .init (exec .revParse s0).2).1.returncode = 0
    · rw [if_pos h2]
      simp [initCommitTail_fst, h2]
    · rw [if_neg h2]
      simp [h1, h2]

/-- The mcp preparer fails exactly when one of the subprocesses it runs with
`check=True` exits non-zero on the executed path: `git init` (when needed),
or `git add` or `git commit` (when the status output is non-empty). -/
theorem mcp_init_git_repo_err_iff (exec : GitCmd → GitState → ProcResult × GitState)
    (s0 : GitState) :
    (mcp_init_git_repo exec s0).1.isOk = false ↔
      (((exec .revParse s0).1.returncode ≠ 0 ∧
          (exec .init (exec .revParse s0).2).1.returncode ≠ 0) ∨
        (((exec .revParse s0).1.returncode = 0 ∨
            (exec .init (exec .revParse s0).2).1.returncode = 0) ∧
          pyStrip (exec .status (statusEntryState exec s0)).1.stdout ≠ "" ∧
          ((exec .add (exec .status (statusEntryState exec s0)).2).1.returncode ≠ 0 ∨
            (exec .commit
              (exec .add (exec .status (statusEntryState exec s0)).2).2).1.returncode ≠ 0))) := by
  unfold mcp_init_git_repo mcpInitCommitTail statusEntryState
  dsimp only
  by_cases h1 : (exec .revParse s0).1.returncode = 0
  · rw [if_pos h1, if_pos h1]
    by_cases h3 : pyStrip (exec .status (exec .revParse s0).2).1.stdout = ""
    · rw [if_pos h3]
      simp [RpcOut.isOk, h1, h3]
    · rw [if_neg h3]
      by_cases h4 : (exec .add (exec .status (exec .revParse s0).2).2).1.returncode = 0
      · rw [if_neg (by simpa using h4)]
        by_cases h5 : (exec .commit
            (exec .add (exec .status (exec .revParse s0).2).2).2).1.returncode = 0
        · rw [if_neg (by simpa using h5)]
          simp [RpcOut.isOk, h1, h3, h4, h5]
        · rw [if_pos (by simpa using h5)]
          simp [RpcOut.isOk, h1, h3, h4, h5]
      · rw [if_pos (by simpa using h4)]
        simp [RpcOut.isOk, h1, h3, h4]
  · rw [if_neg h1, if_neg h1]
    by_cases h2 : (exec .init (exec .revParse s0).2).1.returncode = 0
    · rw [if_pos h2]
      by_cases h3 : pyStrip (exec .status (exec .init (exec .revParse s0).2).2).1.stdout = ""
      · rw [if_pos h3]
        simp [RpcOut.isOk, h1, h2, h3]
      · rw [if_neg h3]
        by_cases h4 : (exec .add
            (exec .status (exec .init (exec .revParse s0).2).2).2).1.returncode = 0
        · rw [if_neg (by simpa using h4)]
          by_cases h5 : (exec .commit (exec .add
              (exec .status (exec .init (exec .revParse s0).2).2).2).2).1.returncode = 0
          · rw [if_neg (by simpa using h5)]
            simp [RpcOut.isOk, h1, h2, h3, h4, h5]
          · rw [if_pos (by simpa using h5)]
            simp [RpcOut.isOk, h1, h2, h3, h4, h5]
        · rw [if_pos (by simpa using h4)]
          simp [RpcOut.isOk, h1, h2, h3, h4]
    · rw [if_neg h2]
      simp [RpcOut.isOk, h1, h2]

/-- C3 (amended): only the subprocesses the preparers run with `check=True`
surface as failures, and the first such failure aborts the call.  The basic
variant returns a failure (a bare false, carrying no captured output)
exactly when rev-parse exits non-zero and `git init` then exits non-zero;
status, add and commit exits are ignored there.  The mcp variant returns an
error payload exactly when `git init` (when invoked), `git add` or
`git commit` (when invoked) exits non-zero. -/
theorem checked_subprocess_failures_only
    (exec : GitCmd → GitState → ProcResult × GitState) (s0 : GitState) :
    ((init_git_repo exec s0).1 = false ↔
      ((exec .revParse s0).1.returncode ≠ 0 ∧
        (exec .init (exec .revParse s0).2).1.returncode ≠ 0)) ∧
    ((mcp_init_git_repo exec s0).1.isOk = false ↔
      (((exec .revParse s0).1.returncode ≠ 0 ∧
          (exec .init (exec .revParse s0).2).1.returncode ≠ 0) ∨
        (((exec .revParse s0).1.returncode = 0 ∨
            (exec .init (exec .revParse s0).2).1.returncode = 0) ∧
          pyStrip (exec .status (statusEntryState exec s0)).1.stdout ≠ "" ∧
          ((exec .add (exec .status (statusEntryState exec s0)).2).1.returncode ≠ 0 ∨
            (exec .commit
              (exec .add (exec .status (statusEntryState exec s0)).2).2).1.returncode ≠ 0)))) :=
  ⟨init_git_repo_false_iff exec s0, mcp_init_git_repo_err_iff exec s0⟩

/-- Counterexample to C4: with a pre-existing "origin" remote the
`git remote add` subprocess exits non-zero, yet the basic variant's
`create_github_repo` (the one both the CLI and server.py use) returns
success — the failure is not surfaced. -/
theorem preexisting_origin_not_surfaced :
    (gitSpec (.remoteAdd sampleWorld.apiCloneUrl) originRepo).1.returncode ≠ 0 ∧
    (create_github_repo sampleWorld "proj" false originRepo).1 = true := by
  decide

/-- C4 (amended): with a pre-existing "origin" the remote-add subprocess
exits non-zero in either variant, but only the mcp line-protocol variant
surfaces this as a pipeline failure (error code -32002, and no push is
attempted); the basic variant ignores the remote-add exit status and
returns success whenever the two API steps succeeded. -/
theorem preexisting_origin_by_variant (w : World) (s : GitState)
    (n : String) (p : Bool) (nj pj : JValue)
    (hg : w.git = gitSpec) (ho : s.hasOrigin = true)
    (ha : w.authOk = true) (hc : w.createOk = true) :
    (w.git (.remoteAdd w.apiCloneUrl) s).1.returncode ≠ 0 ∧
    (mcp_create_github_repo w nj pj s).1.errCode = some (-32002) ∧
    GitCmd.push ∉ gitTrace (mcp_create_github_repo w nj pj s).2.2 ∧
    (create_github_repo w n p s).1 = true := by
  refine ⟨?_, ?_, ?_, ?_⟩
  · simp [hg, gitSpec, ho]
  · simp [mcp_create_github_repo, hg, ha, hc, gitSpec, ho, RpcOut.errCode]
  · simp [mcp_create_github_repo, hg, ha, hc, gitSpec, ho, gitTrace]
  · simp [create_github_repo, hg, ha, hc]

/-- Witness for C4 (amended) at the concrete healthy environment and a
working tree that already has an "origin" remote. -/
theorem preexisting_origin_by_variant_witness :
    (sampleWorld.git (.remoteAdd sampleWorld.apiCloneUrl) originRepo).1.returncode ≠ 0 ∧
    (mcp_create_github_repo sampleWorld (.str "proj") (.bool false) originRepo).1.errCode =
      some (-32002) ∧
    GitCmd.push ∉
      gitTrace (mcp_create_github_repo sampleWorld (.str "proj") (.bool false) originRepo).2.2 ∧
    (create_github_repo sampleWorld "proj" false originRepo).1 = true :=
  preexisting_origin_by_variant sampleWorld originRepo "proj" false
    (.str "proj") (.bool false) rfl rfl rfl rfl

/-- C5: the preparer is idempotent.  On a directory that is not yet a
working tree and has uncommitted files, one run initializes the repository,
stages and commits, and ends with exactly one commit; a second run on the
resulting state performs no init, no staging and no commit and leaves the
state unchanged; on an already-clean working tree no staging or commit
happens at all.  Both preparer variants behave this way. -/
theorem init_git_repo_idempotent :
    ((init_git_repo gitSpec freshDir).1 = true ∧
      (init_git_repo gitSpec freshDir).2.1 = ⟨true, false, 1, false⟩ ∧
      GitCmd.add ∈ gitTrace (init_git_repo gitSpec freshDir).2.2 ∧
      GitCmd.commit ∈ gitTrace (init_git_repo gitSpec freshDir).2.2) ∧
    ((init_git_repo gitSpec (init_git_repo gitSpec freshDir).2.1).1 = true ∧
      (init_git_repo gitSpec (init_git_repo gitSpec freshDir).2.1).2.1 =
        (init_git_repo gitSpec freshDir).2.1 ∧
      GitCmd.init ∉ gitTrace (init_git_repo gitSpec (init_git_repo gitSpec freshDir).2.1).2.2 ∧
      GitCmd.add ∉ gitTrace (init_git_repo gitSpec (init_git_repo gitSpec freshDir).2.1).2.2 ∧
      GitCmd.commit ∉
        gitTrace (init_git_repo gitSpec (init_git_repo gitSpec freshDir).2.1).2.2) ∧
    ((init_git_repo gitSpec cleanRepo).1 = true ∧
      (init_git_repo gitSpec cleanRepo).2.1 = cleanRepo ∧
      GitCmd.add ∉ gitTrace (init_git_repo gitSpec cleanRepo).2.2 ∧
      GitCmd.commit ∉ gitTrace (init_git_repo gitSpec cleanRepo).2.2) ∧
    ((mcp_init_git_repo gitSpec freshDir).1.isOk = true ∧
      (mcp_init_git_repo gitSpec freshDir).2.1 = ⟨true, false, 1, false⟩ ∧
      (mcp_init_git_repo gitSpec (mcp_init_git_repo gitSpec freshDir).2.1).1.isOk = true ∧
      (mcp_init_git_repo gitSpec (mcp_init_git_repo gitSpec freshDir).2.1).2.1 =
        (mcp_init_git_repo gitSpec freshDir).2.1 ∧
      GitCmd.add ∉
        gitTrace (mcp_init_git_repo gitSpec (mcp_init_git_repo gitSpec freshDir).2.1).2.2 ∧
      GitCmd.commit ∉
        gitTrace (mcp_init_git_repo gitSpec (mcp_init_git_repo gitSpec freshDir).2.1).2.2 ∧
      GitCmd.add ∉ gitTrace (mcp_init_git_repo gitSpec cleanRepo).2.2 ∧
      GitCmd.commit ∉ gitTrace (mcp_init_git_repo gitSpec cleanRepo).2.2) := by
  decide

/-- Whenever API authentication succeeds, the repository-creation API call
is attempted with exactly the given name and visibility flag. -/
theorem create_github_repo_attempts (w : World) (rn : String) (pv : Bool)
    (s : GitState) (ha : w.authOk = true) :
    Effect.apiCreate (.str rn) (.bool pv) ∈ (create_github_repo w rn pv s).2.2 := by
  unfold create_github_repo
  rw [ha]
  cases hc : w.createOk <;> simp

/-- When the token is set, the directory exists, git works and the local
preparation succeeds, the trace of `upload_to_github` is the version check
followed by the preparer's trace and the publisher's trace. -/
theorem upload_trace_create (w : World) (s0 : GitState) (d : String)
    (n : Option String) (p : Bool)
    (htok : envFalsy w.token = false) (hfs : w.fs (w.resolve d) = true)
    (hgv : w.gitVersionOk = true) (hinit : (init_git_repo w.git s0).1 = true) :
    (upload_to_github w s0 d n p).2.2 =
      Effect.gitCall .version ::
        ((init_git_repo w.git s0).2.2 ++
          (create_github_repo w (pyOrName n (pathName (w.resolve d))) p
            (init_git_repo w.git s0).2.1).2.2) := by
  unfold upload_to_github
  dsimp only
  rw [htok, hfs, hgv, hinit]
  cases hcr : (create_github_repo w (pyOrName n (pathName (w.resolve d))) p
      (init_git_repo w.git s0).2.1).1 <;> simp [hcr]

/-- C6: the repository-visibility default differs by variant.  The basic
CLI parses `--private` as a `store_true` flag defaulting to false, and
passes it through, so a CLI invocation without the flag attempts creation
of a public repository; the `upload_to_github` tool signature defaults
`private` to true, so an invocation omitting the parameter attempts
creation of a private repository. -/
theorem private_default_differs_by_variant (w : World) (s0 : GitState) (d : String)
    (hd1 : d ≠ "--private") (hd2 : d ≠ "--name")
    (htok : envFalsy w.token = false) (hfs : w.fs (w.resolve d) = true)
    (hgv : w.gitVersionOk = true) (hinit : (init_git_repo w.git s0).1 = true)
    (ha : w.authOk = true) :
    parseCliArgs [d] = some ⟨d, none, false⟩ ∧
    cli_run w s0 [d] = some (upload_to_github w s0 d none false) ∧
    uploadPrivateDefault = true ∧
    Effect.apiCreate (.str (pyOrName none (pathName (w.resolve d)))) (.bool false) ∈
      (upload_to_github w s0 d none false).2.2 ∧
    Effect.apiCreate (.str (pyOrName none (pathName (w.resolve d)))) (.bool true) ∈
      (upload_to_github_defaultCall w s0 d none).2.2 := by
  refine ⟨?_, ?_, rfl, ?_, ?_⟩
  · simp [parseCliArgs, parseCliArgs.go, hd1, hd2]
  · simp [cli_run, parseCliArgs, parseCliArgs.go, hd1, hd2]
  · rw [upload_trace_create w s0 d none false htok hfs hgv hinit]
    simp only [List.mem_cons, List.mem_append]
    exact Or.inr (Or.inr (create_github_repo_attempts w _ false _ ha))
  · unfold upload_to_github_defaultCall uploadPrivateDefault
    rw [upload_trace_create w s0 d none true htok hfs hgv hinit]
    simp only [List.mem_cons, List.mem_append]
    exact Or.inr (Or.inr (create_github_repo_attempts w _ true _ ha))

/-- Witness for C6 at the concrete healthy environment. -/
theorem private_default_differs_by_variant_witness :
    parseCliArgs ["/proj"] = some ⟨"/proj", none, false⟩ ∧
    cli_run sampleWorld freshDir ["/proj"] =
      some (upload_to_github sampleWorld freshDir "/proj" none false) ∧
    uploadPrivateDefault = true ∧
    Effect.apiCreate (.str (pyOrName none (pathName (sampleWorld.resolve "/proj"))))
      (.bool false) ∈ (upload_to_github sampleWorld freshDir "/proj" none false).2.2 ∧
    Effect.apiCreate (.str (pyOrName none (pathName (sampleWorld.resolve "/proj"))))
      (.bool true) ∈ (upload_to_github_defaultCall sampleWorld freshDir "/proj" none).2.2 :=
  private_default_differs_by_variant sampleWorld freshDir "/proj"
    (by decide) (by decide) rfl rfl rfl rfl rfl

/-- Counterexample to C7: the well-formed request whose method is the empty
string is not answered with -32601; the dispatcher's truthiness test on
`method` fires first and yields -32600. -/
theorem empty_method_not_method_not_found :
    respErrCode (handle_command sampleWorld freshDir (.ok (JValue.obj
      [("jsonrpc", .str "2.0"), ("id", .num 1), ("method", .str "")]))).1 =
      some (.num (-32600)) ∧ (-32600 : Int) ≠ -32601 :=
  ⟨rfl, by decide⟩

/-- C7 (amended): a well-formed request whose method is a non-empty string
outside check_git/init_repo/create_repo is answered with -32601 (a falsy
method value such as the empty string yields -32600 instead); a line that
is not valid JSON is answered with -32700 and a null id; `init_repo`
without a `directory` parameter and `create_repo` with `token`, `directory`
or `repo_name` absent are answered with -32602. -/
theorem method_dispatch_error_codes (w : World) (s0 : GitState) :
    (∀ fields (m : String),
      lookupList fields "jsonrpc" = some (.str "2.0") →
      lookupList fields "method" = some (.str m) →
      m ≠ "" → m ≠ "check_git" → m ≠ "init_repo" → m ≠ "create_repo" →
      (handle_command w s0 (.ok (.obj fields))).1 =
        mkResponse (orNull (lookupList fields "id"))
          [("error", mkErr (-32601) ("Method not found: " ++ m))]) ∧
    ((handle_command w s0 (.error ())).1 =
      mkResponse .null [("error", mkErr (-32700) "Parse error: Invalid JSON")]) ∧
    (∀ fields ps,
      lookupList fields "jsonrpc" = some (.str "2.0") →
      lookupList fields "method" = some (.str "init_repo") →
      lookupList fields "params" = some (.obj ps) →
      lookupList ps "directory" = none →
      respErrCode (handle_command w s0 (.ok (.obj fields))).1 = some (.num (-32602))) ∧
    (∀ fields ps,
      lookupList fields "jsonrpc" = some (.str "2.0") →
      lookupList fields "method" = some (.str "create_repo") →
      lookupList fields "params" = some (.obj ps) →
      (lookupList ps "token" = none ∨ lookupList ps "directory" = none ∨
        lookupList ps "repo_name" = none) →
      respErrCode (handle_command w s0 (.ok (.obj fields))).1 = some (.num (-32602))) := by
  refine ⟨?_, rfl, ?_, ?_⟩
  · intro fields m hjr hm h0 h1 h2 h3
    simp [handle_command, hjr, hm, isFalsy, h0, h1, h2, h3]
  · intro fields ps hjr hm hp hd
    simp [handle_command, hjr, hm, paramsOf, hp, hd, isFalsy, respErrCode,
      JValue.getField, mkResponse, mkErr, lookupList]
  · intro fields ps hjr hm hp hmiss
    cases ht : lookupList ps "token" <;>
      cases hdv : lookupList ps "directory" <;>
      cases hrv : lookupList ps "repo_name" <;>
      simp_all [handle_command, paramsOf, isFalsy, respErrCode, JValue.getField,
        mkResponse, mkErr, List.filter, lookupList]

/-- Witness for C7 (amended): the unknown method "frobnicate" is answered
with -32601 at the concrete healthy environment. -/
theorem method_dispatch_error_codes_witness :
    (handle_command sampleWorld freshDir (.ok (JValue.obj
      [("jsonrpc", .str "2.0"), ("id", .num 3), ("method", .str "frobnicate")]))).1 =
      mkResponse (.num 3) [("error", mkErr (-32601) "Method not found: frobnicate")] :=
  (method_dispatch_error_codes sampleWorld freshDir).1
    [("jsonrpc", .str "2.0"), ("id", .num 3), ("method", .str "frobnicate")]
    "frobnicate" rfl rfl (by decide) (by decide) (by decide) (by decide)

/-- C8: the fixed `check_git` request is answered under the same id 1, with
a success result exactly when `git --version` exits cleanly and with error
code -32000 otherwise. -/
theorem check_git_request_response (w : World) (s0 : GitState) :
    (handle_command w s0 (.ok checkGitReq)).1.getField "id" = some (.num 1) ∧
    (handle_command w s0 (.ok checkGitReq)).1 =
      (if w.gitVersionOk then
        mkResponse (.num 1)
          [("result", .obj [("success", .bool true), ("message", .str "Git已安装")])]
      else
        mkResponse (.num 1) [("error", mkErr (-32000) "错误: 请先安装Git")]) := by
  cases hg : w.gitVersionOk <;>
    simp [handle_command, checkGitReq, mcpCheckGitInstalled, hg, RpcOut.fields,
      mkResponse, mkErr, JValue.getField, lookupList, isFalsy, orNull]

/-- Every dispatcher response is a full envelope: the proof exhibits the
`mkResponse` constructor every branch of `handle_command` returns. -/
theorem handle_command_is_envelope (w : World) (s0 : GitState)
    (input : Except Unit JValue) :
    ∃ i rest, (handle_command w s0 input).1 = mkResponse i rest := by
  unfold handle_command internalErrorResp
  rcases input with u | data
  · exact ⟨_, _, rfl⟩
  · cases data
    case obj fields =>
      dsimp only
      repeat' split
      all_goals exact ⟨_, _, rfl⟩
    all_goals exact ⟨_, _, rfl⟩

/-- C9: requests lacking `jsonrpc: "2.0"` or lacking a `method` are answered
with -32600 under the request's id (null when absent), and every response
the dispatcher produces carries the fields `jsonrpc = "2.0"` and `id`. -/
theorem dispatcher_envelope_invariants (w : World) (s0 : GitState) :
    (∀ fields, lookupList fields "jsonrpc" ≠ some (.str "2.0") →
      (handle_command w s0 (.ok (.obj fields))).1 =
        mkResponse (orNull (lookupList fields "id"))
          [("error", mkErr (-32600) "Invalid Request: Not JSON-RPC 2.0")]) ∧
    (∀ fields, lookupList fields "jsonrpc" = some (.str "2.0") →
      lookupList fields "method" = none →
      (handle_command w s0 (.ok (.obj fields))).1 =
        mkResponse (orNull (lookupList fields "id"))
          [("error", mkErr (-32600) "Invalid Request: Method not specified")]) ∧
    (∀ input, (handle_command w s0 input).1.getField "jsonrpc" = some (.str "2.0") ∧
      ((handle_command w s0 input).1.getField "id").isSome = true) := by
  refine ⟨?_, ?_, ?_⟩
  · intro fields h
    cases hjr : lookupList fields "jsonrpc" with
    | none => simp [handle_command, hjr]
    | some v =>
      cases v with
      | str s =>
        by_cases hs : s = "2.0"
        · exact absurd (hs ▸ hjr) h
        · simp [handle_command, hjr, hs]
      | null => simp [handle_command, hjr]
      | bool b => simp [handle_command, hjr]
      | num n => simp [handle_command, hjr]
      | arr items => simp [handle_command, hjr]
      | obj fs => simp [handle_command, hjr]
  · intro fields hjr hm
    simp [handle_command, hjr, hm, isFalsy]
  · intro input
    obtain ⟨i, rest, h⟩ := handle_command_is_envelope w s0 input
    rw [h]
    exact ⟨rfl, rfl⟩

/-- Witness for C9: a request without any `jsonrpc` field is answered with
-32600 under its id. -/
theorem dispatcher_envelope_invariants_witness :
    (handle_command sampleWorld freshDir (.ok (JValue.obj [("id", JValue.num 7)]))).1 =
      mkResponse (.num 7) [("error", mkErr (-32600) "Invalid Request: Not JSON-RPC 2.0")] :=
  (dispatcher_envelope_invariants sampleWorld freshDir).1 [("id", JValue.num 7)] (by simp [lookupList])

/-- The basic publisher returns success whenever both API steps succeed
(remote-add and push exits are ignored). -/
theorem create_github_repo_fst (w : World) (rn : String) (pv : Bool) (s : GitState)
    (ha : w.authOk = true) (hc : w.createOk = true) :
    (create_github_repo w rn pv s).1 = true := by
  unfold create_github_repo
  rw [ha, hc]
  rfl

/-- C10: on success, server.py's `create_repo` formats `repo_url` from the
`GITHUB_USERNAME` environment variable and the chosen repository name
(ignoring the URL the hosting API reported); with `GITHUB_USERNAME` unset
the account segment is the literal text "None". -/
theorem server_repo_url_from_username (w : World) (s0 : GitState) (d : String)
    (n : Option String) (p : Bool)
    (hfs : w.fs d = true) (hgv : w.gitVersionOk = true)
    (hinit : (init_git_repo w.git s0).1 = true) (htok : envFalsy w.token = false)
    (ha : w.authOk = true) (hc : w.createOk = true) :
    (server_create_repo w s0 d n p).1.success = true ∧
    (server_create_repo w s0 d n p).1.repo_url =
      some ("https://github.com/" ++ pyStrOpt w.username ++ "/" ++ pyOrName n (pathName d)) ∧
    (w.username = none →
      (server_create_repo w s0 d n p).1.repo_url =
        some ("https://github.com/None/" ++ pyOrName n (pathName d))) := by
  have hcr := create_github_repo_fst w (pyOrName n (pathName d)) p
    (init_git_repo w.git s0).2.1 ha hc
  unfold server_create_repo
  dsimp only
  rw [hfs, hgv, hinit, htok, hcr]
  refine ⟨rfl, rfl, fun hu => ?_⟩
  rw [hu]
  rfl

/-- Witness for C10 at the concrete healthy environment, whose
`GITHUB_USERNAME` is unset. -/
theorem server_repo_url_from_username_witness :
    (server_create_repo sampleWorld freshDir "/proj" none false).1.success = true ∧
    (server_create_repo sampleWorld freshDir "/proj" none false).1.repo_url =
      some ("https://github.com/None/" ++ pyOrName none (pathName "/proj")) :=
  ⟨(server_repo_url_from_username sampleWorld freshDir "/proj" none false
      rfl rfl rfl rfl rfl rfl).1,
    (server_repo_url_from_username sampleWorld freshDir "/proj" none false
      rfl rfl rfl rfl rfl rfl).2.2 rfl⟩

end P2G
